import Mathlib

/-!
Verification development for the fdtables library: a virtual file-descriptor
table mapping per-cage virtual descriptor numbers to real descriptors.

The definitions below are a shallow embedding of the Rust sources.  The main
embedded backend is `src/dashmaparrayglobal.rs` (a map from cage id to a
fixed 1024-slot array of optional descriptor records, a realfd reference
counter, close handlers and an epoll side table).  The highest-watermark
backend `src/muthashmaxglobal.rs` and the get_specific operation of
`src/vanillaglobal.rs` are embedded as well where claims cite them.

Modelling conventions:
* u64 values are Nat.  Overflow never matters on the paths the theorems
  take (counts stay small and positive; the only subtraction, count - 1,
  is applied to stored counts, which are always at least 1).
* Rust panics (failed assert, unwrap of a missing key, out-of-bounds
  indexing of the 1024-entry array) are modelled by the operation
  returning none; a normal return is some of (new state, emitted close
  handler events, Result value).
* The host close handlers (intermediate, final, unreal) are opaque; an
  operation records which handlers it would invoke, in order, as a list of
  events.
* DashMap / HashMap instances are association lists whose insert
  overwrites the existing binding of a key, as the Rust maps do.
-/

namespace Fdtables

/-- Association list lookup: first binding of the key wins (models map get). -/
def alookup {α : Type} : List (Nat × α) → Nat → Option α
  | [], _ => none
  | (k, v) :: rest, key => if k = key then some v else alookup rest key

/-- Association list insert-or-overwrite (models map insert). -/
def aset {α : Type} : List (Nat × α) → Nat → α → List (Nat × α)
  | [], key, val => [(key, val)]
  | (k, v) :: rest, key, val =>
      if k = key then (key, val) :: rest else (k, v) :: aset rest key val

/-- Association list removal of a key (models map remove). -/
def aremove {α : Type} : List (Nat × α) → Nat → List (Nat × α)
  | [], _ => []
  | (k, v) :: rest, key =>
      if k = key then rest else (k, v) :: aremove rest key

/-- commonconstants.rs: per-process maximum number of fds. -/
def FD_PER_PROCESS_MAX : Nat := 1024

/-- commonconstants.rs: sentinel marking an item with no real backing fd. -/
def NO_REAL_FD : Nat := 0xffabcdef01

/-- commonconstants.rs: sentinel marking an epoll aggregator slot. -/
def EPOLLFD : Nat := 0xffabcdef02

/-- commonconstants.rs: sentinel marking an invalid fd in poll replies. -/
def INVALID_FD : Nat := 0xffabcdef00

/-- commonconstants.rs: epoll_ctl op constants (i32 in the source). -/
def EPOLL_CTL_ADD : Int := 1

/-- commonconstants.rs: epoll_ctl modify op. -/
def EPOLL_CTL_MOD : Int := 2

/-- commonconstants.rs: epoll_ctl delete op. -/
def EPOLL_CTL_DEL : Int := 3

/-- commonconstants.rs: FDTableEntry, the record stored in each slot. -/
structure FDTableEntry where
  realfd : Nat
  should_cloexec : Bool
  optionalinfo : Nat
deriving DecidableEq, Repr

/-- commonconstants.rs: epoll_event (a u32 flag word and a u64 datum). -/
structure EpollEvent where
  events : Nat
  userdata : Nat
deriving DecidableEq, Repr

/-- Error tags returned by the library (numeric values live in threei.rs,
out of scope; the spec treats them as opaque tags). -/
inductive Errno where
  | EBADFD | EBADF | EMFILE | EINVAL | ENOENT | EEXIST | ELIND
deriving DecidableEq, Repr

/-- A close-handler invocation recorded by an operation, in order. -/
inductive Event where
  | intermediate (realfd : Nat)
  | final (realfd : Nat)
  | unreal (optionalinfo : Nat)
deriving DecidableEq, Repr

/-- The per-cage slot array of dashmaparrayglobal.rs:
[Option<FDTableEntry>; FD_PER_PROCESS_MAX].  Reachable arrays always have
length FD_PER_PROCESS_MAX; theorems carry that as a hypothesis. -/
abbrev CageArr : Type := List (Option FDTableEntry)

/-- The empty slot array a new cage starts with. -/
def emptyCageArr : CageArr := List.replicate FD_PER_PROCESS_MAX none

/-- Global state of dashmaparrayglobal.rs: FDTABLE, REALFDCOUNT and the
EPOLLTABLE with its highestneverusedentry, per-entry shadow maps and
per-entry real epollfd map. -/
structure DMAState where
  fdtable : List (Nat × CageArr)
  realfdcount : List (Nat × Nat)
  epollHighest : Nat
  epollTable : List (Nat × List (Nat × EpollEvent))
  epollRealfd : List (Nat × Nat)

/-- The result of an operation: none is a Rust panic, otherwise the new
state, the close-handler events fired (in order) and the Result value. -/
def OpResult (β : Type) : Type := Option (DMAState × List Event × Except Errno β)

/-- dashmaparrayglobal.rs _increment_realfd: a no-op exactly for
NO_REAL_FD, otherwise bumps (or creates at 1) the REALFDCOUNT entry. -/
def incrementRealfd (m : List (Nat × Nat)) (realfd : Nat) : List (Nat × Nat) :=
  if realfd = NO_REAL_FD then m
  else
    match alookup m realfd with
    | some count => aset m realfd (count + 1)
    | none => aset m realfd 1

/-- dashmaparrayglobal.rs _decrement_realfd (identical in
muthashmaxglobal.rs and vanillaglobal.rs): asserts the argument is not
NO_REAL_FD (panic otherwise), unwraps the REALFDCOUNT entry (panic if
absent), computes newcount = count - 1; if newcount > 0 it fires the
intermediate handler and stores newcount, otherwise it fires the final
handler and leaves the map untouched (the stale entry keeps its old
value; nothing is removed). -/
def decrementRealfd (m : List (Nat × Nat)) (realfd : Nat) :
    Option (List (Nat × Nat) × List Event) :=
  if realfd = NO_REAL_FD then none
  else
    match alookup m realfd with
    | none => none
    | some count =>
        let newcount := count - 1
        if newcount > 0 then
          some (aset m realfd newcount, [Event.intermediate realfd])
        else
          some (m, [Event.final realfd])

/-- The first-fit scan of get_unused_virtual_fd in dashmaparrayglobal.rs:
index of the first empty slot, scanning from 0. -/
def findFirstNone : List (Option FDTableEntry) → Option Nat
  | [] => none
  | none :: _ => some 0
  | some _ :: rest => (findFirstNone rest).map (· + 1)

/-- dashmaparrayglobal.rs translate_virtual_fd: asserts the cage is known,
indexes the slot array (panic when out of bounds), returns the realfd of
the entry or EBADFD when the slot is empty. -/
def translateVirtualFd (s : DMAState) (cageid virtualfd : Nat) : OpResult Nat :=
  match alookup s.fdtable cageid with
  | none => none
  | some arr =>
    match arr.get? virtualfd with
    | none => none
    | some (some entry) => some (s, [], Except.ok entry.realfd)
    | some none => some (s, [], Except.error Errno.EBADFD)

/-- dashmaparrayglobal.rs get_unused_virtual_fd: asserts the cage is
known, scans slots from 0, installs the record at the first empty slot
and increments REALFDCOUNT for the realfd, or returns EMFILE when no
slot is empty. -/
def getUnusedVirtualFd (s : DMAState) (cageid realfd : Nat)
    (should_cloexec : Bool) (optionalinfo : Nat) : OpResult Nat :=
  match alookup s.fdtable cageid with
  | none => none
  | some arr =>
    let myentry : FDTableEntry :=
      { realfd := realfd, should_cloexec := should_cloexec,
        optionalinfo := optionalinfo }
    match findFirstNone arr with
    | some fdcandidate =>
        some ({ s with
                  fdtable := aset s.fdtable cageid
                    (arr.set fdcandidate (some myentry)),
                  realfdcount := incrementRealfd s.realfdcount realfd },
              [], Except.ok fdcandidate)
    | none => some (s, [], Except.error Errno.EMFILE)

/-- dashmaparrayglobal.rs get_specific_virtual_fd: asserts the cage is
known; rejects with EBADF only when requested_virtualfd is strictly
greater than FD_PER_PROCESS_MAX (the source check is a strict >);
increments REALFDCOUNT for the new realfd first; then indexes the slot
(panic when out of bounds, which is what happens at exactly
FD_PER_PROCESS_MAX); fires the unreal handler if the displaced occupant
was unreal, otherwise decrements its realfd; finally installs the new
record. -/
def getSpecificVirtualFd (s : DMAState) (cageid requested_virtualfd realfd : Nat)
    (should_cloexec : Bool) (optionalinfo : Nat) : OpResult Unit :=
  match alookup s.fdtable cageid with
  | none => none
  | some arr =>
    if requested_virtualfd > FD_PER_PROCESS_MAX then
      some (s, [], Except.error Errno.EBADF)
    else
      let myentry : FDTableEntry :=
        { realfd := realfd, should_cloexec := should_cloexec,
          optionalinfo := optionalinfo }
      let m1 := incrementRealfd s.realfdcount realfd
      match arr.get? requested_virtualfd with
      | none => none
      | some (some entry) =>
          if entry.realfd = NO_REAL_FD then
            some ({ s with
                      fdtable := aset s.fdtable cageid
                        (arr.set requested_virtualfd (some myentry)),
                      realfdcount := m1 },
                  [Event.unreal entry.optionalinfo], Except.ok ())
          else
            match decrementRealfd m1 entry.realfd with
            | none => none
            | some (m2, evs) =>
                some ({ s with
                          fdtable := aset s.fdtable cageid
                            (arr.set requested_virtualfd (some myentry)),
                          realfdcount := m2 },
                      evs, Except.ok ())
      | some none =>
          some ({ s with
                    fdtable := aset s.fdtable cageid
                      (arr.set requested_virtualfd (some myentry)),
                    realfdcount := m1 },
                [], Except.ok ())

/-- dashmaparrayglobal.rs set_cloexec: asserts the cage is known, indexes
the slot (panic when out of bounds), EBADFD when empty, else updates the
should_cloexec flag. -/
def setCloexec (s : DMAState) (cageid virtualfd : Nat) (is_cloexec : Bool) :
    OpResult Unit :=
  match alookup s.fdtable cageid with
  | none => none
  | some arr =>
    match arr.get? virtualfd with
    | none => none
    | some none => some (s, [], Except.error Errno.EBADFD)
    | some (some entry) =>
        let newentry := { entry with should_cloexec := is_cloexec }
        let newtable := aset s.fdtable cageid (arr.set virtualfd (some newentry))
        some ({ s with fdtable := newtable }, [], Except.ok ())

/-- dashmaparrayglobal.rs get_optionalinfo: asserts the cage is known,
indexes the slot (panic when out of bounds), EBADFD when empty, else
returns the optionalinfo field. -/
def getOptionalinfo (s : DMAState) (cageid virtualfd : Nat) : OpResult Nat :=
  match alookup s.fdtable cageid with
  | none => none
  | some arr =>
    match arr.get? virtualfd with
    | none => none
    | some (some entry) => some (s, [], Except.ok entry.optionalinfo)
    | some none => some (s, [], Except.error Errno.EBADFD)

/-- dashmaparrayglobal.rs set_optionalinfo: asserts the cage is known,
indexes the slot (panic when out of bounds), EBADFD when empty, else
updates the optionalinfo field. -/
def setOptionalinfo (s : DMAState) (cageid virtualfd optionalinfo : Nat) :
    OpResult Unit :=
  match alookup s.fdtable cageid with
  | none => none
  | some arr =>
    match arr.get? virtualfd with
    | none => none
    | some none => some (s, [], Except.error Errno.EBADFD)
    | some (some entry) =>
        let newentry := { entry with optionalinfo := optionalinfo }
        let newtable := aset s.fdtable cageid (arr.set virtualfd (some newentry))
        some ({ s with fdtable := newtable }, [], Except.ok ())

/-- dashmaparrayglobal.rs close_virtualfd: asserts the cage is known,
indexes the slot (panic when out of bounds); for an occupied slot, fires
the unreal handler when the occupant is unreal, otherwise decrements its
realfd, and clears the slot; EBADFD when the slot is empty. -/
def closeVirtualfd (s : DMAState) (cageid virtfd : Nat) : OpResult Unit :=
  match alookup s.fdtable cageid with
  | none => none
  | some arr =>
    match arr.get? virtfd with
    | none => none
    | some (some entry) =>
        if entry.realfd = NO_REAL_FD then
          let newtable := aset s.fdtable cageid (arr.set virtfd none)
          some ({ s with fdtable := newtable },
                [Event.unreal entry.optionalinfo], Except.ok ())
        else
          match decrementRealfd s.realfdcount entry.realfd with
          | none => none
          | some (m, evs) =>
              some ({ s with
                        fdtable := aset s.fdtable cageid (arr.set virtfd none),
                        realfdcount := m },
                    evs, Except.ok ())
    | some none => some (s, [], Except.error Errno.EBADFD)

/-- Loop body of remove_cage_from_fdtable in dashmaparrayglobal.rs: walk
every slot; for an occupied slot fire the unreal handler when the
occupant is unreal, otherwise decrement its realfd (panic propagates). -/
def closeAllSlots : List (Option FDTableEntry) → List (Nat × Nat) →
    Option (List (Nat × Nat) × List Event)
  | [], m => some (m, [])
  | none :: rest, m => closeAllSlots rest m
  | some entry :: rest, m =>
      if entry.realfd = NO_REAL_FD then
        (closeAllSlots rest m).map
          (fun r => (r.1, Event.unreal entry.optionalinfo :: r.2))
      else
        match decrementRealfd m entry.realfd with
        | none => none
        | some (m1, evs1) =>
            (closeAllSlots rest m1).map (fun r => (r.1, evs1 ++ r.2))

/-- dashmaparrayglobal.rs remove_cage_from_fdtable: asserts the cage is
known, walks all slots firing unreal handlers / decrements, then removes
the cage from FDTABLE. -/
def removeCageFromFdtable (s : DMAState) (cageid : Nat) : OpResult Unit :=
  match alookup s.fdtable cageid with
  | none => none
  | some arr =>
    match closeAllSlots arr s.realfdcount with
    | none => none
    | some (m, evs) =>
        some ({ s with
                  fdtable := aremove s.fdtable cageid,
                  realfdcount := m },
              evs, Except.ok ())

/-- Loop body of empty_fds_for_exec in dashmaparrayglobal.rs: walk every
slot; slots whose should_cloexec flag is set are closed (unreal handler
or realfd decrement) and cleared; the rest are kept. -/
def execSlots : List (Option FDTableEntry) → List (Nat × Nat) →
    Option (List (Option FDTableEntry) × List (Nat × Nat) × List Event)
  | [], m => some ([], m, [])
  | none :: rest, m =>
      (execSlots rest m).map (fun r => (none :: r.1, r.2.1, r.2.2))
  | some entry :: rest, m =>
      if entry.should_cloexec then
        if entry.realfd = NO_REAL_FD then
          (execSlots rest m).map
            (fun r => (none :: r.1, r.2.1, Event.unreal entry.optionalinfo :: r.2.2))
        else
          match decrementRealfd m entry.realfd with
          | none => none
          | some (m1, evs1) =>
              (execSlots rest m1).map
                (fun r => (none :: r.1, r.2.1, evs1 ++ r.2.2))
      else
        (execSlots rest m).map (fun r => (some entry :: r.1, r.2.1, r.2.2))

/-- dashmaparrayglobal.rs empty_fds_for_exec: asserts the cage is known
and removes every slot with should_cloexec set, with close semantics. -/
def emptyFdsForExec (s : DMAState) (cageid : Nat) : OpResult Unit :=
  match alookup s.fdtable cageid with
  | none => none
  | some arr =>
    match execSlots arr s.realfdcount with
    | none => none
    | some (newarr, m, evs) =>
        some ({ s with
                  fdtable := aset s.fdtable cageid newarr,
                  realfdcount := m },
              evs, Except.ok ())

/-- Loop body of copy_fdtable_for_cage in dashmaparrayglobal.rs:
increment the count of every occupied slot whose realfd is not
NO_REAL_FD. -/
def incrementAllReal : List (Option FDTableEntry) → List (Nat × Nat) →
    List (Nat × Nat)
  | [], m => m
  | none :: rest, m => incrementAllReal rest m
  | some entry :: rest, m =>
      if entry.realfd = NO_REAL_FD then incrementAllReal rest m
      else incrementAllReal rest (incrementRealfd m entry.realfd)

/-- dashmaparrayglobal.rs copy_fdtable_for_cage: asserts the source cage
is known and the new cage is not; copies the slot array, increments the
count of every occupied real slot and inserts the copy for the new
cage.  No handlers fire. -/
def copyFdtableForCage (s : DMAState) (srccageid newcageid : Nat) :
    OpResult Unit :=
  match alookup s.fdtable srccageid with
  | none => none
  | some arr =>
    match alookup s.fdtable newcageid with
    | some _ => none
    | none =>
        some ({ s with
                  fdtable := aset s.fdtable newcageid arr,
                  realfdcount := incrementAllReal arr s.realfdcount },
              [], Except.ok ())

/-- dashmaparrayglobal.rs epoll_create_helper: allocates a slot holding
the sentinel EPOLLFD whose optionalinfo is the fresh side-table entry
number (via get_unused_virtual_fd, which also increments REALFDCOUNT for
EPOLLFD), then installs the realfd and an empty shadow map for that
entry and bumps highestneverusedentry; an EMFILE from the allocation is
passed through. -/
def epollCreateHelper (s : DMAState) (cageid realfd : Nat)
    (should_cloexec : Bool) : OpResult Nat :=
  match getUnusedVirtualFd s cageid EPOLLFD should_cloexec s.epollHighest with
  | none => none
  | some (s1, evs, Except.error e) => some (s1, evs, Except.error e)
  | some (s1, evs, Except.ok newepollfd) =>
      let newentry := s.epollHighest
      some ({ s1 with
                epollHighest := newentry + 1,
                epollRealfd := aset s1.epollRealfd newentry realfd,
                epollTable := aset s1.epollTable newentry [] },
            evs, Except.ok newepollfd)

/-- dashmaparrayglobal.rs try_epoll_ctl: EINVAL when epfd equals virtfd;
EBADF / EINVAL when the epfd slot is empty / not an EPOLLFD slot; panics
when the side-table entry is missing; EBADF when the virtfd slot is
empty; when the virtfd slot holds anything other than NO_REAL_FD it
returns the passthrough pair before ever looking at op; otherwise
ADD/MOD/DEL mutate the shadow map (EEXIST / ENOENT on bad
preconditions) and any other op yields EINVAL. -/
def tryEpollCtl (s : DMAState) (cageid epfd : Nat) (op : Int) (virtfd : Nat)
    (event : EpollEvent) : OpResult (Nat × Nat) :=
  match alookup s.fdtable cageid with
  | none => none
  | some arr =>
    if epfd = virtfd then some (s, [], Except.error Errno.EINVAL)
    else
      match arr.get? epfd with
      | none => none
      | some none => some (s, [], Except.error Errno.EBADF)
      | some (some tableentry) =>
        if tableentry.realfd ≠ EPOLLFD then
          some (s, [], Except.error Errno.EINVAL)
        else
          let epollentrynum := tableentry.optionalinfo
          match alookup s.epollRealfd epollentrynum with
          | none => none
          | some realepollfd =>
            match alookup s.epollTable epollentrynum with
            | none => none
            | some eptentry =>
              match arr.get? virtfd with
              | none => none
              | some none => some (s, [], Except.error Errno.EBADF)
              | some (some vte) =>
                if vte.realfd ≠ NO_REAL_FD then
                  some (s, [], Except.ok (realepollfd, vte.realfd))
                else if op = EPOLL_CTL_ADD then
                  if (alookup eptentry virtfd).isSome then
                    some (s, [], Except.error Errno.EEXIST)
                  else
                    let newept := aset s.epollTable epollentrynum
                      (aset eptentry virtfd event)
                    some ({ s with epollTable := newept },
                          [], Except.ok (realepollfd, NO_REAL_FD))
                else if op = EPOLL_CTL_MOD then
                  if (alookup eptentry virtfd).isNone then
                    some (s, [], Except.error Errno.ENOENT)
                  else
                    let newept := aset s.epollTable epollentrynum
                      (aset eptentry virtfd event)
                    some ({ s with epollTable := newept },
                          [], Except.ok (realepollfd, NO_REAL_FD))
                else if op = EPOLL_CTL_DEL then
                  if (alookup eptentry virtfd).isNone then
                    some (s, [], Except.error Errno.ENOENT)
                  else
                    let newept := aset s.epollTable epollentrynum
                      (aremove eptentry virtfd)
                    some ({ s with epollTable := newept },
                          [], Except.ok (realepollfd, NO_REAL_FD))
                else
                  some (s, [], Except.error Errno.EINVAL)

/-- Loop body of convert_virtualfds_to_real in dashmaparrayglobal.rs,
threading the mapping table left to right: occupied real slots push
their realfd and record realfd to virtfd in the mapping; unreal slots
push their realfd and the (virtfd, optionalinfo) pair onto the unreal
vector; empty slots push INVALID_FD and the virtfd onto the invalid
vector; indexing out of bounds panics. -/
def convertLoop (arr : CageArr) (mapping : List (Nat × Nat)) :
    List Nat → Option (List Nat × List (Nat × Nat) × List Nat × List (Nat × Nat))
  | [] => some ([], [], [], mapping)
  | virtfd :: rest =>
    match arr.get? virtfd with
    | none => none
    | some (some entry) =>
        if entry.realfd = NO_REAL_FD then
          (convertLoop arr mapping rest).map
            (fun r => (entry.realfd :: r.1,
                       (virtfd, entry.optionalinfo) :: r.2.1, r.2.2.1, r.2.2.2))
        else
          (convertLoop arr (aset mapping entry.realfd virtfd) rest).map
            (fun r => (entry.realfd :: r.1, r.2.1, r.2.2.1, r.2.2.2))
    | some none =>
        (convertLoop arr mapping rest).map
          (fun r => (INVALID_FD :: r.1, r.2.1, virtfd :: r.2.2.1, r.2.2.2))

/-- dashmaparrayglobal.rs convert_virtualfds_to_real: asserts the cage is
known and runs the conversion loop with an empty mapping table,
returning (realvec, unrealvec, invalidvec, mappingtable). -/
def convertVirtualfdsToReal (s : DMAState) (cageid : Nat)
    (virtualfds : List Nat) :
    Option (List Nat × List (Nat × Nat) × List Nat × List (Nat × Nat)) :=
  match alookup s.fdtable cageid with
  | none => none
  | some arr => convertLoop arr [] virtualfds

/-- dashmaparrayglobal.rs convert_realfds_back_to_virtual: looks every
realfd up in the mapping table; a missing key is an unwrap panic. -/
def convertRealfdsBackToVirtual (realfds : List Nat)
    (mappingtable : List (Nat × Nat)) : Option (List Nat) :=
  match realfds with
  | [] => some []
  | r :: rest =>
    match alookup mappingtable r with
    | none => none
    | some v => (convertRealfdsBackToVirtual rest mappingtable).map (v :: ·)

/-- Number of slots of one cage array whose record has the given realfd. -/
def countInArr (arr : CageArr) (r : Nat) : Nat :=
  arr.foldl
    (fun acc slot =>
      match slot with
      | some e => if e.realfd = r then acc + 1 else acc
      | none => acc) 0

/-- Number of (cage, slot) pairs over the whole table whose record has
the given realfd (the quantity invariant RC-1 speaks about). -/
def countPairs (t : List (Nat × CageArr)) (r : Nat) : Nat :=
  t.foldl (fun acc p => acc + countInArr p.2 r) 0

/-- The initial global state of dashmaparrayglobal.rs: FDTABLE holds one
pre-inserted testing cage (threei::TESTING_CAGEID lives in threei.rs,
out of scope; the spec scenarios use cageid 1, which we adopt),
REALFDCOUNT is empty, and the epoll side table is empty with
highestneverusedentry 0. -/
def dmaInitState : DMAState :=
  { fdtable := [(1, emptyCageArr)],
    realfdcount := [],
    epollHighest := 0,
    epollTable := [],
    epollRealfd := [] }

/-! The highest-watermark backend muthashmaxglobal.rs: per cage a
HashMap from virtfd to entry plus a highestneverusedfd counter. -/

/-- muthashmaxglobal.rs FDTable: the per-cage map and the watermark. -/
structure MHMTable where
  highestneverusedfd : Nat
  thisfdtable : List (Nat × FDTableEntry)

/-- Global state of muthashmaxglobal.rs (GLOBALFDTABLE and
GLOBALREALFDCOUNT). -/
structure MHMState where
  fdtable : List (Nat × MHMTable)
  realfdcount : List (Nat × Nat)

/-- Result type for muthashmaxglobal.rs operations (none is a panic). -/
def MHMOpResult (β : Type) : Type :=
  Option (MHMState × List Event × Except Errno β)

/-- The fallback scan of get_unused_virtual_fd in muthashmaxglobal.rs:
the first key in 0..FD_PER_PROCESS_MAX vacant in the map. -/
def mhmFindVacant (m : List (Nat × FDTableEntry)) : Option Nat :=
  (List.range FD_PER_PROCESS_MAX).find? (fun k => (alookup m k).isNone)

/-- muthashmaxglobal.rs get_unused_virtual_fd: panics on an unknown
cage; while highestneverusedfd is below FD_PER_PROCESS_MAX it hands out
the watermark itself (even when a lower slot is free) and bumps it; only
once the watermark is exhausted does it scan from 0 for a vacant key;
EMFILE when the scan finds none. -/
def mhmGetUnusedVirtualFd (s : MHMState) (cageid realfd : Nat)
    (should_cloexec : Bool) (optionalinfo : Nat) : MHMOpResult Nat :=
  match alookup s.fdtable cageid with
  | none => none
  | some t =>
    let myentry : FDTableEntry :=
      { realfd := realfd, should_cloexec := should_cloexec,
        optionalinfo := optionalinfo }
    if t.highestneverusedfd < FD_PER_PROCESS_MAX then
      let newt : MHMTable :=
        { highestneverusedfd := t.highestneverusedfd + 1,
          thisfdtable := aset t.thisfdtable t.highestneverusedfd myentry }
      some ({ fdtable := aset s.fdtable cageid newt,
              realfdcount := incrementRealfd s.realfdcount realfd },
            [], Except.ok t.highestneverusedfd)
    else
      match mhmFindVacant t.thisfdtable with
      | some fdcandidate =>
          let newt : MHMTable :=
            { t with thisfdtable := aset t.thisfdtable fdcandidate myentry }
          some ({ fdtable := aset s.fdtable cageid newt,
                  realfdcount := incrementRealfd s.realfdcount realfd },
                [], Except.ok fdcandidate)
      | none => some (s, [], Except.error Errno.EMFILE)

/-- muthashmaxglobal.rs close_virtualfd: panics on an unknown cage;
removes the virtfd binding; EBADFD when it was absent; otherwise unreal
handler or realfd decrement as in the array backend. -/
def mhmCloseVirtualfd (s : MHMState) (cageid virtfd : Nat) : MHMOpResult Unit :=
  match alookup s.fdtable cageid with
  | none => none
  | some t =>
    match alookup t.thisfdtable virtfd with
    | none => some (s, [], Except.error Errno.EBADFD)
    | some entry =>
      let newt : MHMTable := { t with thisfdtable := aremove t.thisfdtable virtfd }
      if entry.realfd = NO_REAL_FD then
        some ({ s with fdtable := aset s.fdtable cageid newt },
              [Event.unreal entry.optionalinfo], Except.ok ())
      else
        match decrementRealfd s.realfdcount entry.realfd with
        | none => none
        | some (m, evs) =>
            some ({ fdtable := aset s.fdtable cageid newt, realfdcount := m },
                  evs, Except.ok ())

/-- The initial muthashmaxglobal.rs state: one pre-inserted testing cage
with an empty map and watermark 0; empty count map. -/
def mhmInitState : MHMState :=
  { fdtable := [(1, { highestneverusedfd := 0, thisfdtable := [] })],
    realfdcount := [] }

/-! The vanillaglobal.rs backend (per-cage plain HashMap), embedded only
for its get_specific_virtual_fd, which claim C5 cites. -/

/-- Global state of vanillaglobal.rs (GLOBALFDTABLE and
GLOBALREALFDCOUNT). -/
structure VanState where
  fdtable : List (Nat × List (Nat × FDTableEntry))
  realfdcount : List (Nat × Nat)

/-- vanillaglobal.rs get_specific_virtual_fd: panics on an unknown cage;
rejects with EBADF only when requested_virtualfd is strictly greater
than FD_PER_PROCESS_MAX; increments the new realfd first; fires unreal
or decrements for a displaced occupant; then inserts the record at the
requested key (at exactly FD_PER_PROCESS_MAX this silently creates a
1025th slot). -/
def vanGetSpecificVirtualFd (s : VanState)
    (cageid requested_virtualfd realfd : Nat) (should_cloexec : Bool)
    (optionalinfo : Nat) : Option (VanState × List Event × Except Errno Unit) :=
  match alookup s.fdtable cageid with
  | none => none
  | some table =>
    if requested_virtualfd > FD_PER_PROCESS_MAX then
      some (s, [], Except.error Errno.EBADF)
    else
      let myentry : FDTableEntry :=
        { realfd := realfd, should_cloexec := should_cloexec,
          optionalinfo := optionalinfo }
      let m1 := incrementRealfd s.realfdcount realfd
      let newtable := aset s.fdtable cageid
        (aset table requested_virtualfd myentry)
      match alookup table requested_virtualfd with
      | some entry =>
          if entry.realfd ≠ NO_REAL_FD then
            match decrementRealfd m1 entry.realfd with
            | none => none
            | some (m2, evs) =>
                some ({ fdtable := newtable, realfdcount := m2 },
                      evs, Except.ok ())
          else
            some ({ fdtable := newtable, realfdcount := m1 },
                  [Event.unreal entry.optionalinfo], Except.ok ())
      | none =>
          some ({ fdtable := newtable, realfdcount := m1 }, [], Except.ok ())


/-! Concrete states used by the witnesses and counterexamples below. -/

/-- The initial vanillaglobal.rs state: one pre-inserted testing cage
with an empty map, empty count map. -/
def vanInitState : VanState :=
  { fdtable := [(1, [])], realfdcount := [] }

/-- The state after get_unused_virtual_fd(1, 5, false, 0) on the initial
array-backend state: slot 0 of cage 1 holds realfd 5. -/
def c2AllocState : DMAState :=
  { dmaInitState with
      fdtable := aset dmaInitState.fdtable 1
        (emptyCageArr.set 0
          (some { realfd := 5, should_cloexec := false, optionalinfo := 0 })),
      realfdcount := incrementRealfd dmaInitState.realfdcount 5 }

/-- The state after epoll_create_helper(1, 100, false) on the initial
array-backend state: slot 0 of cage 1 is an EPOLLFD aggregator whose
optionalinfo indexes side-table entry 0. -/
def postEpollCreateState : DMAState :=
  { fdtable := aset dmaInitState.fdtable 1
      (emptyCageArr.set 0
        (some { realfd := EPOLLFD, should_cloexec := false, optionalinfo := 0 })),
    realfdcount := incrementRealfd dmaInitState.realfdcount EPOLLFD,
    epollHighest := 1,
    epollTable := aset dmaInitState.epollTable 0 [],
    epollRealfd := aset dmaInitState.epollRealfd 0 100 }

/-- A state where cage 1 has slot 5 holding real fd 57 (count 1). -/
def c6WitState : DMAState :=
  { fdtable := [(1, emptyCageArr.set 5
      (some { realfd := 57, should_cloexec := false, optionalinfo := 10 }))],
    realfdcount := [(57, 1)],
    epollHighest := 0,
    epollTable := [],
    epollRealfd := [] }

/-- A slot array with: slot 5 an EPOLLFD aggregator over side-table
entry 0, slot 3 a real fd 20, slot 7 an unreal descriptor with
optionalinfo 123. -/
def c8Arr : CageArr :=
  ((emptyCageArr.set 5
      (some { realfd := EPOLLFD, should_cloexec := false, optionalinfo := 0 })).set 3
    (some { realfd := 20, should_cloexec := false, optionalinfo := 0 })).set 7
    (some { realfd := NO_REAL_FD, should_cloexec := false, optionalinfo := 123 })

/-- A state where cage 1 has the slots of c8Arr installed. -/
def c8State : DMAState :=
  { fdtable := [(1, c8Arr)],
    realfdcount := [(EPOLLFD, 1), (20, 1)],
    epollHighest := 1,
    epollTable := [(0, [])],
    epollRealfd := [(0, 100)] }

/-- A state where cage 1 has slots 0 and 1 both referring to the same
real fd 10 (as dup or fork produce). -/
def c9State : DMAState :=
  { fdtable := [(1,
      (emptyCageArr.set 0
          (some { realfd := 10, should_cloexec := false, optionalinfo := 0 })).set 1
        (some { realfd := 10, should_cloexec := false, optionalinfo := 0 }))],
    realfdcount := [(10, 2)],
    epollHighest := 0,
    epollTable := [],
    epollRealfd := [] }

/-- A state where cage 1 has slots 0 and 1 holding distinct real fds 10
and 11. -/
def c9WitState : DMAState :=
  { fdtable := [(1,
      (emptyCageArr.set 0
          (some { realfd := 10, should_cloexec := false, optionalinfo := 0 })).set 1
        (some { realfd := 11, should_cloexec := false, optionalinfo := 0 }))],
    realfdcount := [(10, 1), (11, 1)],
    epollHighest := 0,
    epollTable := [],
    epollRealfd := [] }

/-- The slot contents of c9WitState as a function, for the injectivity
hypothesis of the amended round-trip theorem. -/
def c9WitFun : Nat → FDTableEntry :=
  fun v =>
    if v = 0 then { realfd := 10, should_cloexec := false, optionalinfo := 0 }
    else { realfd := 11, should_cloexec := false, optionalinfo := 0 }


/-! Helper lemmas about the association-list primitives and the
first-fit scan. -/

set_option maxRecDepth 10000

theorem alookup_aset_self {α : Type} (m : List (Nat × α)) (k : Nat) (v : α) :
    alookup (aset m k v) k = some v := by
  induction m with
  | nil => simp [aset, alookup]
  | cons p rest ih =>
    obtain ⟨k1, v1⟩ := p
    by_cases h : k1 = k
    · simp [aset, h, alookup]
    · simp [aset, h, alookup, ih]

theorem alookup_aset_ne {α : Type} (m : List (Nat × α)) (k key : Nat) (v : α)
    (hne : k ≠ key) : alookup (aset m k v) key = alookup m key := by
  induction m with
  | nil => simp [aset, alookup, hne]
  | cons p rest ih =>
    obtain ⟨k1, v1⟩ := p
    by_cases h : k1 = k
    · subst h
      simp [aset, alookup, hne]
    · simp [aset, h, alookup, ih]

theorem alookup_incrementRealfd_self (m : List (Nat × Nat)) (realfd : Nat)
    (h : realfd ≠ NO_REAL_FD) :
    alookup (incrementRealfd m realfd) realfd
      = some ((alookup m realfd).getD 0 + 1) := by
  unfold incrementRealfd
  rw [if_neg h]
  cases hc : alookup m realfd <;> simp [hc, alookup_aset_self]

theorem findFirstNone_some {l : List (Option FDTableEntry)} {i : Nat}
    (h : findFirstNone l = some i) :
    l.get? i = some none ∧ ∀ j, j < i → l.get? j ≠ some none := by
  induction l generalizing i with
  | nil => simp [findFirstNone] at h
  | cons hd tl ih =>
    cases hd with
    | none =>
      simp [findFirstNone] at h
      subst h
      exact ⟨rfl, fun j hj => absurd hj (by omega)⟩
    | some e =>
      simp [findFirstNone] at h
      obtain ⟨k, hk, rfl⟩ := h
      obtain ⟨h1, h2⟩ := ih hk
      refine ⟨by simpa using h1, ?_⟩
      intro j hj
      cases j with
      | zero => simp
      | succ j => simpa using h2 j (by omega)

theorem findFirstNone_eq_none {l : List (Option FDTableEntry)} :
    findFirstNone l = none ↔ ∀ x ∈ l, x ≠ none := by
  induction l with
  | nil => simp [findFirstNone]
  | cons hd tl ih =>
    cases hd with
    | none => simp [findFirstNone]
    | some e => simp [findFirstNone, ih]

/-- C1: the claim that after any sequence of public operations the stored
count for a real fd equals the number of (cage, slot) pairs whose record
holds it fails on the code: allocating real fd 57 once in the initial
state and then closing it fires the final handler, yet REALFDCOUNT still
stores 1 for fd 57 while zero (cage, slot) pairs reference it, because
_decrement_realfd neither removes nor updates the entry on the path
where the count reaches zero. -/
theorem C1_count_diverges_after_final_close :
    ((getUnusedVirtualFd dmaInitState 1 57 false 10).bind
        (fun r1 => closeVirtualfd r1.1 1 0)).map
        (fun r2 => (r2.2.1, alookup r2.1.realfdcount 57,
                    countPairs r2.1.fdtable 57))
      = some ([Event.final 57], some 1, 0) := by
  rfl

/-- C3: the claim that a count entry exists iff the count is positive and
that the decrement reaching zero removes the entry fails on the code:
allocating real fd 57 and closing it fires the final handler (the
decrement to zero), yet the REALFDCOUNT entry for 57 survives with its
stale value 1. -/
theorem C3_entry_survives_final_decrement :
    ((getUnusedVirtualFd dmaInitState 1 57 false 10).bind
        (fun r1 => closeVirtualfd r1.1 1 0)).map
        (fun r2 => (r2.2.1, alookup r2.1.realfdcount 57))
      = some ([Event.final 57], some 1) := by
  rfl

/-- C5: the claim that get_specific_virtual_fd rejects every requested fd
at or above FD_PER_PROCESS_MAX with EBADF and no mutation fails at
exactly FD_PER_PROCESS_MAX, because the source check is the strict
comparison requested_virtualfd > FD_PER_PROCESS_MAX: the array backend
(dashmaparrayglobal.rs) panics indexing slot 1024 of a 1024-entry array,
and the hashmap backend (vanillaglobal.rs) silently installs a 1025th
slot at key 1024 and returns Ok. -/
theorem C5_boundary_1024_not_rejected :
    getSpecificVirtualFd dmaInitState 1 FD_PER_PROCESS_MAX 7 false 0 = none ∧
    (vanGetSpecificVirtualFd vanInitState 1 FD_PER_PROCESS_MAX 7 false 0).map
        (fun r => (r.2.2, (alookup r.1.fdtable 1).map
          (fun t => alookup t FD_PER_PROCESS_MAX)))
      = some (Except.ok (),
          some (some { realfd := 7, should_cloexec := false, optionalinfo := 0 })) := by
  exact ⟨rfl, rfl⟩

/-- C4 counterexample: the claim that no operation ever creates or
increments a reference-count entry for a sentinel realfd, and that
epoll_create_helper leaves the counter unchanged, is false: on the
initial state (whose counter has no EPOLLFD entry) epoll_create_helper
succeeds and leaves the counter with an EPOLLFD entry of 1, because
_increment_realfd exempts only NO_REAL_FD. -/
theorem C4_epoll_create_counts_epollfd :
    alookup dmaInitState.realfdcount EPOLLFD = none ∧
    (epollCreateHelper dmaInitState 1 100 false).map
        (fun r => (r.2.2, alookup r.1.realfdcount EPOLLFD))
      = some (Except.ok 0, some 1) := by
  exact ⟨rfl, rfl⟩


theorem getUnused_ok_state (s : DMAState) (cageid realfd : Nat) (clo : Bool)
    (info : Nat) (s2 : DMAState) (evs : List Event) (v : Nat)
    (hok : getUnusedVirtualFd s cageid realfd clo info
      = some (s2, evs, Except.ok v)) :
    s2.realfdcount = incrementRealfd s.realfdcount realfd := by
  unfold getUnusedVirtualFd at hok
  cases hcage : alookup s.fdtable cageid with
  | none => rw [hcage] at hok; exact Option.noConfusion hok
  | some arr =>
    rw [hcage] at hok
    dsimp only at hok
    cases hfind : findFirstNone arr with
    | none =>
      rw [hfind] at hok
      exact Except.noConfusion (congrArg (fun t => t.2.2) (Option.some.inj hok))
    | some idx =>
      rw [hfind] at hok
      have h := Option.some.inj hok
      have hs2 := congrArg Prod.fst h
      dsimp only at hs2
      rw [← hs2]

theorem epollCreate_ok_realfdcount (s : DMAState) (cageid realfd : Nat)
    (clo : Bool) (s2 : DMAState) (evs : List Event) (v : Nat)
    (hok : epollCreateHelper s cageid realfd clo
      = some (s2, evs, Except.ok v)) :
    s2.realfdcount = incrementRealfd s.realfdcount EPOLLFD := by
  unfold epollCreateHelper at hok
  cases hg : getUnusedVirtualFd s cageid EPOLLFD clo s.epollHighest with
  | none => rw [hg] at hok; exact Option.noConfusion hok
  | some r =>
    obtain ⟨s1, evs1, res1⟩ := r
    rw [hg] at hok
    cases res1 with
    | error e =>
      exact Except.noConfusion (congrArg (fun t => t.2.2) (Option.some.inj hok))
    | ok newepollfd =>
      have h := Option.some.inj hok
      have hs2 := congrArg Prod.fst h
      dsimp only at hs2
      have hrc : s2.realfdcount = s1.realfdcount := by rw [← hs2]
      rw [hrc]
      exact getUnused_ok_state s cageid EPOLLFD clo s.epollHighest s1 evs1
        newepollfd hg

/-- C4 amended: _increment_realfd is a no-op only for the sentinel
NO_REAL_FD; every other realfd value, the sentinels EPOLLFD and
INVALID_FD included, is counted like a real descriptor, and in
particular a successful epoll_create_helper increments the counter
entry for EPOLLFD by one (creating it at 1 when absent). -/
theorem C4_sentinel_counting_amended (s : DMAState) (cageid realfd : Nat)
    (clo : Bool) (s2 : DMAState) (evs : List Event) (v : Nat)
    (hok : epollCreateHelper s cageid realfd clo
      = some (s2, evs, Except.ok v)) :
    (∀ m : List (Nat × Nat), incrementRealfd m NO_REAL_FD = m) ∧
    alookup s2.realfdcount EPOLLFD
      = some ((alookup s.realfdcount EPOLLFD).getD 0 + 1) := by
  constructor
  · intro m; simp [incrementRealfd]
  · rw [epollCreate_ok_realfdcount s cageid realfd clo s2 evs v hok]
    exact alookup_incrementRealfd_self s.realfdcount EPOLLFD (by decide)

/-- C4 amended, witness: instantiated on the initial state, where
epoll_create_helper returns virtual fd 0 and the EPOLLFD counter entry
becomes 1. -/
theorem C4_sentinel_counting_amended_witness :
    (∀ m : List (Nat × Nat), incrementRealfd m NO_REAL_FD = m) ∧
    alookup postEpollCreateState.realfdcount EPOLLFD
      = some ((alookup dmaInitState.realfdcount EPOLLFD).getD 0 + 1) :=
  C4_sentinel_counting_amended dmaInitState 1 100 false postEpollCreateState
    [] 0 rfl


/-- C6: when get_specific_virtual_fd replaces an in-range occupant whose
realfd is the same non-sentinel value as the new records realfd, and the
counter holds a positive count for that realfd (as it does in every
reachable state with such an occupant), the operation succeeds firing
exactly one intermediate handler for that realfd and never the final
handler, because the new reference is counted before the displaced
occupants reference is decremented. -/
theorem C6_replace_same_realfd_fires_intermediate_once
    (s : DMAState) (cageid v rfd : Nat) (clo : Bool) (info : Nat)
    (arr : CageArr) (occ : FDTableEntry) (c : Nat)
    (hcage : alookup s.fdtable cageid = some arr)
    (hlen : arr.length = FD_PER_PROCESS_MAX)
    (hocc : arr.get? v = some (some occ))
    (hreal : occ.realfd = rfd)
    (hsent : rfd ≠ NO_REAL_FD)
    (hcount : alookup s.realfdcount rfd = some c)
    (hpos : 0 < c) :
    (getSpecificVirtualFd s cageid v rfd clo info).map (fun r => r.2)
      = some ([Event.intermediate rfd], Except.ok ()) := by
  have hvlt : v < arr.length := by
    obtain ⟨hlt, _⟩ := List.get?_eq_some.1 hocc
    exact hlt
  have hnotgt : ¬ v > FD_PER_PROCESS_MAX := by
    rw [hlen] at hvlt
    omega
  have hdec : decrementRealfd (incrementRealfd s.realfdcount rfd) rfd
      = some (aset (incrementRealfd s.realfdcount rfd) rfd c,
              [Event.intermediate rfd]) := by
    unfold decrementRealfd
    rw [if_neg hsent, alookup_incrementRealfd_self s.realfdcount rfd hsent,
        hcount]
    dsimp only [Option.getD]
    rw [Nat.add_sub_cancel, if_pos hpos]
  unfold getSpecificVirtualFd
  rw [hcage]
  dsimp only
  rw [if_neg hnotgt, hocc]
  dsimp only
  rw [hreal, if_neg hsent, hdec]
  rfl

/-- C6 witness: in a state where cage 1 holds real fd 57 at slot 5 with
count 1, get_specific_virtual_fd(1, 5, 57, false, 10) fires exactly one
intermediate handler for 57 and succeeds. -/
theorem C6_replace_same_realfd_witness :
    (getSpecificVirtualFd c6WitState 1 5 57 false 10).map (fun r => r.2)
      = some ([Event.intermediate 57], Except.ok ()) :=
  C6_replace_same_realfd_fires_intermediate_once c6WitState 1 5 57 false 10
    (emptyCageArr.set 5
      (some { realfd := 57, should_cloexec := false, optionalinfo := 10 }))
    { realfd := 57, should_cloexec := false, optionalinfo := 10 } 1
    rfl (by decide) rfl rfl (by decide) rfl (by decide)


/-- C7 counterexample: the claim that destroying an epoll aggregator
slot also removes the epoll side-table entry its optionalinfo indexes
is false: after epoll_create_helper(1, 100, false) installs slot 0 over
side-table entry 0, close_virtualfd(1, 0) clears the slot, yet entry 0
is still present in the side table (the source has an explicit TODO
that the table is never cleaned up). -/
theorem C7_side_table_entry_survives_close :
    (epollCreateHelper dmaInitState 1 100 false).bind
        (fun r1 => (closeVirtualfd r1.1 1 0).map
          (fun r2 => (alookup r2.1.epollTable 0,
                      (alookup r2.1.fdtable 1).map (fun a => a.get? 0))))
      = some (some [], some (some none)) := by
  rfl

/-- C7 amended: destroying an epoll aggregator slot (here by
close_virtualfd) clears the owning slot but leaves the whole epoll side
table, and the per-entry kernel-epollfd map, completely unchanged: the
side-table entry outlives its owning slot for the life of the process. -/
theorem C7_side_table_persists_amended
    (s : DMAState) (cageid v : Nat) (arr : CageArr) (occ : FDTableEntry)
    (c : Nat)
    (hcage : alookup s.fdtable cageid = some arr)
    (hocc : arr.get? v = some (some occ))
    (hrfd : occ.realfd = EPOLLFD)
    (hcount : alookup s.realfdcount EPOLLFD = some c) :
    (closeVirtualfd s cageid v).map
        (fun r => (r.1.epollTable, r.1.epollRealfd,
                   (alookup r.1.fdtable cageid).map (fun a => a.get? v)))
      = some (s.epollTable, s.epollRealfd, some (some none)) := by
  have hvlt : v < arr.length := by
    obtain ⟨hlt, _⟩ := List.get?_eq_some.1 hocc
    exact hlt
  have hsent : ¬ EPOLLFD = NO_REAL_FD := by decide
  unfold closeVirtualfd
  rw [hcage]
  dsimp only
  rw [hocc]
  dsimp only
  rw [hrfd, if_neg hsent]
  unfold decrementRealfd
  rw [if_neg hsent, hcount]
  dsimp only
  by_cases hc : c - 1 > 0
  · rw [if_pos hc]
    simp only [Option.map_some', alookup_aset_self]
    rw [List.get?_set_eq_of_lt none hvlt]
  · rw [if_neg hc]
    simp only [Option.map_some', alookup_aset_self]
    rw [List.get?_set_eq_of_lt none hvlt]

/-- C7 amended, witness: closing the aggregator slot created by
epoll_create_helper on the initial state leaves both epoll side-table
maps unchanged while the slot becomes empty. -/
theorem C7_side_table_persists_witness :
    (closeVirtualfd postEpollCreateState 1 0).map
        (fun r => (r.1.epollTable, r.1.epollRealfd,
                   (alookup r.1.fdtable 1).map (fun a => a.get? 0)))
      = some (postEpollCreateState.epollTable, postEpollCreateState.epollRealfd,
              some (some none)) :=
  C7_side_table_persists_amended postEpollCreateState 1 0
    (emptyCageArr.set 0
      (some { realfd := EPOLLFD, should_cloexec := false, optionalinfo := 0 }))
    { realfd := EPOLLFD, should_cloexec := false, optionalinfo := 0 } 1
    rfl rfl rfl rfl


/-- C8 counterexample: the claim that every op outside ADD/MOD/DEL makes
try_epoll_ctl return EINVAL even when the target slot holds a real
descriptor is false: with epoll fd 5 (side-table entry 0, kernel
epollfd 100) and target fd 3 holding real fd 20, op 99 returns the
passthrough pair Ok (100, 20), because the real-target passthrough runs
before op is examined. -/
theorem C8_unknown_op_real_target_not_einval :
    tryEpollCtl c8State 1 5 99 3 { events := 1, userdata := 0 }
      = some (c8State, [], Except.ok (100, 20)) ∧
    (99 : Int) ≠ EPOLL_CTL_ADD ∧ (99 : Int) ≠ EPOLL_CTL_MOD ∧
    (99 : Int) ≠ EPOLL_CTL_DEL := by
  exact ⟨rfl, by decide, by decide, by decide⟩

/-- C8 amended: for an op outside ADD/MOD/DEL, with a valid epoll fd and
an occupied target slot, try_epoll_ctl returns EINVAL exactly when the
target slot is unreal (realfd = NO_REAL_FD); when the target holds any
other realfd the call returns the passthrough pair Ok (kernel epollfd,
target realfd) without ever examining op. -/
theorem C8_bad_op_amended
    (s : DMAState) (cageid epfd virtfd : Nat) (op : Int) (event : EpollEvent)
    (arr : CageArr) (epte vte : FDTableEntry) (realepollfd : Nat)
    (eptentry : List (Nat × EpollEvent))
    (hcage : alookup s.fdtable cageid = some arr)
    (hne : epfd ≠ virtfd)
    (hepocc : arr.get? epfd = some (some epte))
    (hepfd : epte.realfd = EPOLLFD)
    (hrf : alookup s.epollRealfd epte.optionalinfo = some realepollfd)
    (hept : alookup s.epollTable epte.optionalinfo = some eptentry)
    (hvocc : arr.get? virtfd = some (some vte))
    (hopa : op ≠ EPOLL_CTL_ADD) (hopm : op ≠ EPOLL_CTL_MOD)
    (hopd : op ≠ EPOLL_CTL_DEL) :
    (vte.realfd ≠ NO_REAL_FD →
      tryEpollCtl s cageid epfd op virtfd event
        = some (s, [], Except.ok (realepollfd, vte.realfd))) ∧
    (vte.realfd = NO_REAL_FD →
      tryEpollCtl s cageid epfd op virtfd event
        = some (s, [], Except.error Errno.EINVAL)) := by
  constructor
  · intro hv
    unfold tryEpollCtl
    rw [hcage]
    try dsimp only
    rw [if_neg hne, hepocc]
    try dsimp only
    rw [hepfd, if_neg (fun h => h rfl)]
    try dsimp only
    rw [hrf]
    try dsimp only
    rw [hept]
    try dsimp only
    rw [hvocc]
    try dsimp only
    rw [if_pos hv]
  · intro hv
    unfold tryEpollCtl
    rw [hcage]
    try dsimp only
    rw [if_neg hne, hepocc]
    try dsimp only
    rw [hepfd, if_neg (fun h => h rfl)]
    try dsimp only
    rw [hrf]
    try dsimp only
    rw [hept]
    try dsimp only
    rw [hvocc]
    try dsimp only
    rw [if_neg (fun h => h hv), if_neg hopa, if_neg hopm, if_neg hopd]

/-- C8 amended, witness: with op 42, the real target (fd 3, realfd 20)
yields the passthrough Ok (100, 20) while the unreal target (fd 7)
yields EINVAL. -/
theorem C8_bad_op_amended_witness :
    tryEpollCtl c8State 1 5 42 3 { events := 1, userdata := 0 }
      = some (c8State, [], Except.ok (100, 20)) ∧
    tryEpollCtl c8State 1 5 42 7 { events := 1, userdata := 0 }
      = some (c8State, [], Except.error Errno.EINVAL) := by
  constructor
  · exact (C8_bad_op_amended c8State 1 5 3 42 { events := 1, userdata := 0 }
      c8Arr { realfd := EPOLLFD, should_cloexec := false, optionalinfo := 0 }
      { realfd := 20, should_cloexec := false, optionalinfo := 0 } 100 []
      rfl (by decide) rfl rfl rfl rfl rfl (by decide) (by decide)
      (by decide)).1 (by decide)
  · exact (C8_bad_op_amended c8State 1 5 7 42 { events := 1, userdata := 0 }
      c8Arr { realfd := EPOLLFD, should_cloexec := false, optionalinfo := 0 }
      { realfd := NO_REAL_FD, should_cloexec := false, optionalinfo := 123 }
      100 [] rfl (by decide) rfl rfl rfl rfl rfl (by decide) (by decide)
      (by decide)).2 rfl


/-- C9 counterexample: the claim that from_real after to_real is the
identity on any vector of occupied real slots is false when two distinct
virtual fds share the same real fd (the normal situation after dup or
fork): with slots 0 and 1 both holding real fd 10, the vector [0, 1]
converts to realfds [10, 10] with mapping 10 to 1, and converts back to
[1, 1], not [0, 1]. -/
theorem C9_roundtrip_fails_on_shared_realfd :
    (convertVirtualfdsToReal c9State 1 [0, 1]).bind
        (fun r => convertRealfdsBackToVirtual r.1 r.2.2.2)
      = some [1, 1] ∧ ([1, 1] : List Nat) ≠ [0, 1] := by
  exact ⟨rfl, by decide⟩

theorem alookup_foldl_aset_miss (f : Nat → FDTableEntry) (vs : List Nat)
    (k : Nat) :
    ∀ m0 : List (Nat × Nat), (∀ v ∈ vs, (f v).realfd ≠ k) →
      alookup (vs.foldl (fun acc v => aset acc (f v).realfd v) m0) k
        = alookup m0 k := by
  induction vs with
  | nil => intro m0 _; rfl
  | cons v rest ih =>
    intro m0 hmiss
    have h1 : (f v).realfd ≠ k := hmiss v (List.mem_cons_self v rest)
    have hrest : ∀ w ∈ rest, (f w).realfd ≠ k :=
      fun w hw => hmiss w (List.mem_cons_of_mem v hw)
    simp only [List.foldl_cons]
    rw [ih (aset m0 (f v).realfd v) hrest,
        alookup_aset_ne m0 (f v).realfd k v h1]

theorem alookup_foldl_aset_hit (f : Nat → FDTableEntry) (vs : List Nat)
    (k val : Nat) :
    ∀ m0 : List (Nat × Nat),
      (∃ v, v ∈ vs ∧ (f v).realfd = k ∧ v = val) →
      (∀ v ∈ vs, (f v).realfd = k → v = val) →
      alookup (vs.foldl (fun acc v => aset acc (f v).realfd v) m0) k
        = some val := by
  induction vs with
  | nil =>
    intro m0 hmem _
    obtain ⟨v, hv, _⟩ := hmem
    exact absurd hv (List.not_mem_nil v)
  | cons v rest ih =>
    intro m0 hmem hall
    simp only [List.foldl_cons]
    by_cases hex : ∃ w, w ∈ rest ∧ (f w).realfd = k
    · obtain ⟨w, hw, hwk⟩ := hex
      exact ih (aset m0 (f v).realfd v)
        ⟨w, hw, hwk, hall w (List.mem_cons_of_mem v hw) hwk⟩
        (fun u hu huk => hall u (List.mem_cons_of_mem v hu) huk)
    · have hmiss : ∀ w ∈ rest, (f w).realfd ≠ k :=
        fun w hw hk => hex ⟨w, hw, hk⟩
      rw [alookup_foldl_aset_miss f rest k (aset m0 (f v).realfd v) hmiss]
      obtain ⟨u, hu, huk, huv⟩ := hmem
      rcases List.mem_cons.1 hu with h | h
      · subst h
        subst huv
        rw [← huk]
        exact alookup_aset_self m0 ((f u).realfd) u
      · exact absurd huk (hmiss u h)

theorem convertLoop_real (arr : CageArr) (f : Nat → FDTableEntry)
    (vs : List Nat) :
    ∀ m0 : List (Nat × Nat),
      (∀ v ∈ vs, arr.get? v = some (some (f v))) →
      (∀ v ∈ vs, (f v).realfd ≠ NO_REAL_FD) →
      convertLoop arr m0 vs
        = some (vs.map (fun v => (f v).realfd), [], [],
                vs.foldl (fun acc v => aset acc (f v).realfd v) m0) := by
  induction vs with
  | nil => intro m0 _ _; rfl
  | cons v rest ih =>
    intro m0 hocc hreal
    have h1 := hocc v (List.mem_cons_self v rest)
    have h2 := hreal v (List.mem_cons_self v rest)
    unfold convertLoop
    rw [h1]
    dsimp only
    rw [if_neg h2]
    rw [ih (aset m0 (f v).realfd v)
        (fun w hw => hocc w (List.mem_cons_of_mem v hw))
        (fun w hw => hreal w (List.mem_cons_of_mem v hw))]
    simp only [Option.map_some', List.map_cons, List.foldl_cons]

theorem convertBack_map (g : Nat → Nat) (m : List (Nat × Nat)) :
    ∀ vs : List Nat, (∀ v ∈ vs, alookup m (g v) = some v) →
      convertRealfdsBackToVirtual (vs.map g) m = some vs := by
  intro vs
  induction vs with
  | nil => intro _; rfl
  | cons v rest ih =>
    intro h
    simp only [List.map_cons]
    unfold convertRealfdsBackToVirtual
    rw [h v (List.mem_cons_self v rest),
        ih (fun w hw => h w (List.mem_cons_of_mem v hw))]
    rfl

/-- C9 amended: from_real after to_real is the identity on a vector of
occupied, real (non-sentinel) slots provided the slots realfds are
injective over the virtual fds in the vector (no two distinct virtual
fds in the vector share a realfd); without that proviso the
realfd-keyed mapping table makes the last writer win. -/
theorem C9_roundtrip_identity_amended (s : DMAState) (cageid : Nat)
    (arr : CageArr) (vs : List Nat) (f : Nat → FDTableEntry)
    (hcage : alookup s.fdtable cageid = some arr)
    (hocc : ∀ v ∈ vs, arr.get? v = some (some (f v)))
    (hsent : ∀ v ∈ vs, (f v).realfd ≠ NO_REAL_FD ∧ (f v).realfd ≠ EPOLLFD ∧
      (f v).realfd ≠ INVALID_FD)
    (hinj : ∀ v ∈ vs, ∀ w ∈ vs, (f v).realfd = (f w).realfd → v = w) :
    (convertVirtualfdsToReal s cageid vs).bind
        (fun r => convertRealfdsBackToVirtual r.1 r.2.2.2)
      = some vs := by
  unfold convertVirtualfdsToReal
  rw [hcage]
  dsimp only
  rw [convertLoop_real arr f vs [] hocc (fun v hv => (hsent v hv).1)]
  dsimp only [Option.bind]
  exact convertBack_map (fun v => (f v).realfd)
    (vs.foldl (fun acc v => aset acc (f v).realfd v) []) vs
    (fun v hv => alookup_foldl_aset_hit f vs ((f v).realfd) v []
      ⟨v, hv, rfl, rfl⟩ (fun w hw hwk => hinj w hw v hv hwk))

/-- C9 amended, witness: with slots 0 and 1 holding the distinct real
fds 10 and 11, the round trip on [0, 1] is the identity. -/
theorem C9_roundtrip_identity_witness :
    (convertVirtualfdsToReal c9WitState 1 [0, 1]).bind
        (fun r => convertRealfdsBackToVirtual r.1 r.2.2.2)
      = some [0, 1] :=
  C9_roundtrip_identity_amended c9WitState 1
    ((emptyCageArr.set 0
        (some { realfd := 10, should_cloexec := false, optionalinfo := 0 })).set 1
      (some { realfd := 11, should_cloexec := false, optionalinfo := 0 }))
    [0, 1] c9WitFun rfl (by decide) (by decide) (by decide)


/-- C2 counterexample: the highest-watermark backend muthashmaxglobal.rs
is not first-fit while the watermark is below capacity: allocate,
allocate, close(0), allocate on its initial state returns fd 2 from the
watermark even though slot 0 is the lowest empty slot (a first-fit scan
would return 0). -/
theorem C2_watermark_skips_lower_free_slot :
    (mhmGetUnusedVirtualFd mhmInitState 1 7 false 10).bind
        (fun r1 => (mhmGetUnusedVirtualFd r1.1 1 7 false 10).bind
          (fun r2 => (mhmCloseVirtualfd r2.1 1 0).map
            (fun r3 => ((mhmGetUnusedVirtualFd r3.1 1 7 false 10).map
                (fun r4 => r4.2.2),
              (alookup r3.1.fdtable 1).map
                (fun t => alookup t.thisfdtable 0)))))
      = some (some (Except.ok 2), some none) := by
  rfl

/-- C2 amended: the scanning backend dashmaparrayglobal.rs is first-fit:
a successful get_unused_virtual_fd returns the lowest empty slot index,
and it returns EMFILE exactly when no slot is empty; the
highest-watermark backend muthashmaxglobal.rs instead hands out its
highestneverusedfd watermark whenever the watermark is below
FD_PER_PROCESS_MAX, even when a lower slot has been freed, and only
falls back to a first-fit scan once the watermark is exhausted. -/
theorem C2_first_fit_amended (s : DMAState) (cageid realfd : Nat)
    (clo : Bool) (info : Nat) (arr : CageArr)
    (hcage : alookup s.fdtable cageid = some arr)
    (ms : MHMState) (mcage mrealfd : Nat) (mclo : Bool) (minfo : Nat)
    (mt : MHMTable)
    (hmcage : alookup ms.fdtable mcage = some mt)
    (hw : mt.highestneverusedfd < FD_PER_PROCESS_MAX) :
    (∀ (s2 : DMAState) (evs : List Event) (v : Nat),
       getUnusedVirtualFd s cageid realfd clo info
         = some (s2, evs, Except.ok v) →
       arr.get? v = some none ∧ ∀ j, j < v → arr.get? j ≠ some none)
    ∧ (getUnusedVirtualFd s cageid realfd clo info
         = some (s, [], Except.error Errno.EMFILE) ↔ ∀ x ∈ arr, x ≠ none)
    ∧ ∃ ms2 : MHMState,
        mhmGetUnusedVirtualFd ms mcage mrealfd mclo minfo
          = some (ms2, [], Except.ok mt.highestneverusedfd) := by
  refine ⟨?_, ⟨?_, ?_⟩, ?_⟩
  · intro s2 evs v hok
    unfold getUnusedVirtualFd at hok
    rw [hcage] at hok
    dsimp only at hok
    cases hfind : findFirstNone arr with
    | none =>
      rw [hfind] at hok
      exact Except.noConfusion (congrArg (fun t => t.2.2) (Option.some.inj hok))
    | some idx =>
      rw [hfind] at hok
      have hv : idx = v :=
        Except.ok.inj (congrArg (fun t => t.2.2) (Option.some.inj hok))
      subst hv
      exact findFirstNone_some hfind
  · intro hemf
    cases hfind : findFirstNone arr with
    | none => exact findFirstNone_eq_none.1 hfind
    | some idx =>
      exfalso
      unfold getUnusedVirtualFd at hemf
      rw [hcage] at hemf
      dsimp only at hemf
      rw [hfind] at hemf
      exact Except.noConfusion (congrArg (fun t => t.2.2) (Option.some.inj hemf))
  · intro hall
    unfold getUnusedVirtualFd
    rw [hcage]
    dsimp only
    rw [findFirstNone_eq_none.2 hall]
  · unfold mhmGetUnusedVirtualFd
    rw [hmcage]
    dsimp only
    rw [if_pos hw]
    exact ⟨_, rfl⟩

/-- C2 amended, witness: in the initial states slot 0 is empty and is
the one both backends hand out first. -/
theorem C2_first_fit_amended_witness :
    emptyCageArr.get? 0 = some none ∧
    (mhmGetUnusedVirtualFd mhmInitState 1 5 false 0).map (fun r => r.2.2)
      = some (Except.ok 0) := by
  have h := C2_first_fit_amended dmaInitState 1 5 false 0 emptyCageArr rfl
    mhmInitState 1 5 false 0 { highestneverusedfd := 0, thisfdtable := [] }
    rfl (by decide)
  constructor
  · exact (h.1 c2AllocState [] 0 rfl).1
  · obtain ⟨ms2, hms⟩ := h.2.2
    rw [hms]
    rfl

/-- C10: for a known cage and any virtual fd at or beyond
FD_PER_PROCESS_MAX, the array-backed lookup operations of
dashmaparrayglobal.rs (translate_virtual_fd, set_cloexec,
get_optionalinfo, set_optionalinfo, close_virtualfd) panic indexing the
fixed-size slot array out of bounds (modelled as none) rather than
returning an error tag such as EBADFD. -/
theorem C10_array_ops_panic_out_of_bounds (s : DMAState) (cageid v : Nat)
    (flag : Bool) (info : Nat) (arr : CageArr)
    (hcage : alookup s.fdtable cageid = some arr)
    (hlen : arr.length = FD_PER_PROCESS_MAX)
    (hv : FD_PER_PROCESS_MAX ≤ v) :
    translateVirtualFd s cageid v = none ∧
    setCloexec s cageid v flag = none ∧
    getOptionalinfo s cageid v = none ∧
    setOptionalinfo s cageid v info = none ∧
    closeVirtualfd s cageid v = none := by
  have hnone : arr.get? v = none := by
    apply List.get?_eq_none.2
    rw [hlen]
    exact hv
  refine ⟨?_, ?_, ?_, ?_, ?_⟩
  · unfold translateVirtualFd
    rw [hcage]
    dsimp only
    rw [hnone]
  · unfold setCloexec
    rw [hcage]
    dsimp only
    rw [hnone]
  · unfold getOptionalinfo
    rw [hcage]
    dsimp only
    rw [hnone]
  · unfold setOptionalinfo
    rw [hcage]
    dsimp only
    rw [hnone]
  · unfold closeVirtualfd
    rw [hcage]
    dsimp only
    rw [hnone]

/-- C10 witness: on the initial state, cage 1 and virtual fd 1024 (the
capacity itself) make all five operations panic. -/
theorem C10_array_ops_panic_witness :
    translateVirtualFd dmaInitState 1 1024 = none ∧
    setCloexec dmaInitState 1 1024 true = none ∧
    getOptionalinfo dmaInitState 1 1024 = none ∧
    setOptionalinfo dmaInitState 1 1024 0 = none ∧
    closeVirtualfd dmaInitState 1 1024 = none :=
  C10_array_ops_panic_out_of_bounds dmaInitState 1 1024 true 0 emptyCageArr
    rfl (by decide) (by decide)

end Fdtables
